/-
Verification of the ai-test-generator core (app.py): the prompt renderer
`create_test_generation_prompt`, the regenerate/refinement path
`regenerate_tests` (including its markdown code-block extraction), and the
generate path `generate_tests`, shallowly embedded in Lean.

Python strings are modelled as Lean `String` / `List Char`; the Python
string operations used by the code (`find`, `in`, slicing, `strip`,
`split`, `replace`, `lower`, `", ".join`, `rsplit('.', 1)`) are modelled
by the executable functions below.  Dynamic dictionaries are modelled as
records with `Option` fields (a `dict['k']` access on a missing key is a
`KeyError`, modelled as `Except.error` carrying the key name; `.get` with
a default is `Option.getD`).  The filesystem folders are modelled as
association lists from filename to content, and the external collaborators
(`SpecParser.parse_openapi_spec`, the Granite generation client, werkzeug's
`secure_filename`, the uuid) are opaque parameters of the request handlers.
-/
import Mathlib

namespace AppModel

/-- Whitespace characters stripped by Python's `str.strip()` (ASCII part):
space, tab, newline, carriage return, vertical tab, form feed. -/
def pyIsSpace (c : Char) : Bool :=
  c = ' ' || c = '\t' || c = '\n' || c = '\r' || c = '\x0b' || c = '\x0c'

/-- Python `str.strip()` on a character list: drop whitespace from both ends. -/
def pyStrip (l : List Char) : List Char :=
  (((l.dropWhile pyIsSpace).reverse).dropWhile pyIsSpace).reverse

/-- Python `str.strip()` on strings. -/
def pyStripStr (s : String) : String := ⟨pyStrip s.data⟩

/-- The backtick character (codepoint 96). -/
def btChar : Char := Char.ofNat 96

/-- The markdown fence marker, Python literal three backticks. -/
def fence : List Char := [btChar, btChar, btChar]

/-- The java-tagged markdown fence opener, three backticks then `java`. -/
def javaFence : List Char := fence ++ ['j', 'a', 'v', 'a']

/-- Helper for `findSubstr`: first index `≥ i` (in the original list) at which
`pat` occurs, scanning the remaining suffix `s`. -/
def findSubstrAux (pat : List Char) : List Char → Nat → Option Nat
  | [], i => if pat.isPrefixOf [] then some i else none
  | c :: rest, i =>
    if pat.isPrefixOf (c :: rest) then some i else findSubstrAux pat rest (i + 1)

/-- Python `s.find(pat)`: index of the first occurrence of `pat` in `s`,
`none` standing for Python's `-1`. -/
def findSubstr (s pat : List Char) : Option Nat := findSubstrAux pat s 0

/-- Python `s.find(pat, start)`: first occurrence at index `≥ start`. -/
def findSubstrFrom (s pat : List Char) (start : Nat) : Option Nat :=
  (findSubstr (s.drop start) pat).map (· + start)

/-- Python `pat in s` substring test. -/
def containsSub (s pat : List Char) : Bool := (findSubstr s pat).isSome

/-- Fuel-driven worker for `splitOnList`; the fuel bounds the number of
separator occurrences, which is at most the length of the list. -/
def splitFuel (sep : List Char) : Nat → List Char → List (List Char)
  | 0, s => [s]
  | fuel + 1, s =>
    match findSubstr s sep with
    | none => [s]
    | some i => s.take i :: splitFuel sep fuel (s.drop (i + sep.length))

/-- Python `s.split(sep)` for a non-empty separator: maximal split on
non-overlapping occurrences, left to right. -/
def splitOnList (s sep : List Char) : List (List Char) :=
  if sep = [] then [s] else splitFuel sep (s.length + 1) s

/-- Join a list of pieces with a separator (used to model `str.replace`). -/
def joinSep (sep : List Char) : List (List Char) → List Char
  | [] => []
  | [x] => x
  | x :: y :: rest => x ++ sep ++ joinSep sep (y :: rest)

/-- Python `s.replace(pat, rep)` for a non-empty `pat`: replace every
non-overlapping occurrence, left to right. -/
def strReplace (s pat rep : String) : String :=
  ⟨joinSep rep.data (splitOnList s.data pat.data)⟩

/-- Python `s.lower()` (ASCII model). -/
def strLower (s : String) : String := ⟨s.data.map Char.toLower⟩

/-- Python `", ".join(l)`. -/
def commaJoin : List String → String
  | [] => ""
  | [x] => x
  | x :: y :: rest => x ++ ", " ++ commaJoin (y :: rest)

/-- Python `filename.rsplit('.', 1)[1].lower()`: the text after the last
dot, lowercased; `none` when there is no dot (Python raises `IndexError`). -/
def extOf (s : String) : Option String :=
  if ('.' ∈ s.data) then
    some (strLower ⟨(s.data.reverse.takeWhile (fun c => c ≠ '.')).reverse⟩)
  else none

/-- A filesystem folder: association list from filename to file content. -/
abbrev Store := List (String × String)

/-- Read a file from a folder (Python `os.path.exists` + `open(...,'r')`). -/
def storeLookup : Store → String → Option String
  | [], _ => none
  | (k, v) :: rest, key => if k = key then some v else storeLookup rest key

/-- Write a file, overwriting the entry if present (Python `open(...,'w')`). -/
def storeWrite : Store → String → String → Store
  | [], key, val => [(key, val)]
  | (k, v) :: rest, key, val =>
    if k = key then (k, val) :: rest else (k, v) :: storeWrite rest key val

/-- Delete a file (Python `os.remove`). -/
def storeRemove : Store → String → Store
  | [], _ => []
  | (k, v) :: rest, key =>
    if k = key then storeRemove rest key else (k, v) :: storeRemove rest key

/-- The loop `for f in os.listdir(...): if needle in f.lower(): ...`:
first stored file whose lowercased name contains `needle`. -/
def findMatched (needle : String) : Store → Option (String × String)
  | [] => none
  | (f, c) :: rest =>
    if containsSub (strLower f).data needle.data then some (f, c)
    else findMatched needle rest

/-- One entry of an endpoint's `parameters` list; the renderer only reads
the `name` key (`p.get('name', '')`), absent when undeclared. -/
structure ParamInfo where
  name : Option String
deriving DecidableEq

/-- One endpoint record produced by the spec parser.  `method` and `path`
are read with `endpoint['method']` / `endpoint['path']` (KeyError when
absent); `summary`, `parameters` and `responses` are read with `.get` and
defaults.  `responses` keeps only the status-code keys, in order. -/
structure EndpointInfo where
  method : Option String
  path : Option String
  summary : Option String
  parameters : Option (List ParamInfo)
  responses : Option (List String)
deriving DecidableEq

/-- One schema property value; the renderer reads `v.get('type', 'unknown')`. -/
structure PropInfo where
  type : Option String
deriving DecidableEq

/-- One named schema; the renderer reads `schema.get('properties', {})`
as an ordered mapping of property name to property record. -/
structure SchemaInfo where
  properties : Option (List (String × PropInfo))
deriving DecidableEq

/-- The `api_info` dictionary consumed by `create_test_generation_prompt`.
`title`, `version`, `description`, `base_url` and `endpoints` are read with
bracket access (KeyError when absent); `schemas` with `.get('schemas', {})`. -/
structure ApiInfo where
  title : Option String
  version : Option String
  description : Option String
  base_url : Option String
  endpoints : Option (List EndpointInfo)
  schemas : Option (List (String × SchemaInfo))
deriving DecidableEq

/-- `", ".join([p.get('name', '') for p in endpoint.get('parameters', [])])`. -/
def paramsStr (ps : List ParamInfo) : String :=
  commaJoin (ps.map (fun p => p.name.getD ""))

/-- `{params if params else 'None'}`: the rendered Parameters field. -/
def paramsField (ps : List ParamInfo) : String :=
  if paramsStr ps = "" then "None" else paramsStr ps

/-- `{responses if responses else 'N/A'}` with
`responses = ", ".join(endpoint.get('responses', {}).keys())`. -/
def responsesField (rs : List String) : String :=
  if commaJoin rs = "" then "N/A" else commaJoin rs

/-- The per-endpoint fragment appended to `endpoints_summary`
(the f-string at app.py lines 30-34), given the resolved method and path. -/
def endpointEntry (m p : String) (e : EndpointInfo) : String :=
  "\n- " ++ m ++ " " ++ p
  ++ "\n  Summary: " ++ e.summary.getD "N/A"
  ++ "\n  Parameters: " ++ paramsField (e.parameters.getD [])
  ++ "\n  Responses: " ++ responsesField (e.responses.getD [])

/-- Render one endpoint; `endpoint['method']` is accessed before
`endpoint['path']`, and a missing key raises a KeyError carrying that key. -/
def renderEndpoint (e : EndpointInfo) : Except String String :=
  match e.method, e.path with
  | none, _ => .error "method"
  | some _, none => .error "path"
  | some m, some p => .ok (endpointEntry m p e)

/-- The `for endpoint in api_info['endpoints']` accumulation loop
(app.py lines 27-34), left to right. -/
def endpointsSummary : List EndpointInfo → Except String String
  | [] => .ok ""
  | e :: es =>
    match renderEndpoint e with
    | .error k => .error k
    | .ok s =>
      match endpointsSummary es with
      | .error k => .error k
      | .ok rest => .ok (s ++ rest)

/-- One `k: type` item of a schema's property list. -/
def propEntry (k : String) (v : PropInfo) : String := k ++ ": " ++ v.type.getD "unknown"

/-- One `- name: props\n` line of `schemas_summary` (app.py lines 37-40). -/
def schemaEntry (name : String) (schema : SchemaInfo) : String :=
  "- " ++ name ++ ": "
  ++ commaJoin ((schema.properties.getD []).map (fun kv => propEntry kv.1 kv.2))
  ++ "\n"

/-- The `for name, schema in api_info.get('schemas', {}).items()` loop. -/
def schemasSummary (ss : List (String × SchemaInfo)) : String :=
  String.join (ss.map (fun kv => schemaEntry kv.1 kv.2))

/-- `{schemas_summary if schemas_summary else 'No schemas defined'}`:
the rendered data-models block. -/
def schemasField (ss : List (String × SchemaInfo)) : String :=
  if schemasSummary ss = "" then "No schemas defined" else schemasSummary ss

/-- The fixed template text of the prompt f-string up to and including
`Endpoints:`, with the four metadata holes filled. -/
def promptHeader (t v d b : String) : String :=
  "You are an expert QA engineer specializing in API testing. Generate comprehensive JUnit 5 test cases for this REST API.\n\nAPI Information:\n- Title: "
  ++ t ++ "\n- Version: " ++ v ++ "\n- Description: " ++ d ++ "\n- Base URL: " ++ b
  ++ "\n\nEndpoints:"

/-- The fixed template text from the requirement list through
`public class ` (the ten boilerplate requirements and the scaffold). -/
def promptRequirements : String :=
  "1. Generate complete JUnit 5 test classes with proper annotations\n2. Include positive test cases for valid inputs\n3. Include negative test cases for invalid data and error conditions\n4. Add boundary value testing for numeric fields\n5. Test edge cases (empty strings, null values, special characters)\n6. Generate realistic test data matching API schemas\n7. Use proper assertions for status codes, headers, and response body\n8. Use RestTemplate or TestRestTemplate for API calls\n9. Include setup and teardown methods\n10. Follow Spring Boot testing best practices\n\nGenerate complete, runnable Java test classes:\n\npackage com.example.api.test;\n\nimport org.junit.jupiter.api.Test;\nimport org.junit.jupiter.api.BeforeEach;\nimport org.springframework.boot.test.context.SpringBootTest;\nimport org.springframework.test.web.reactive.server.WebTestClient;\nimport static org.junit.jupiter.api.Assertions.*;\n\n@SpringBootTest(webEnvironment = SpringBootTest.WebEnvironment.RANDOM_PORT)\npublic class "

/-- The tail of the prompt after the requirements hole:
`public class {title.replace(' ', '')}ApiTest {` and the closing line. -/
def promptTail (t : String) : String :=
  promptRequirements ++ strReplace t " " ""
  ++ "ApiTest \x7b\n\nGenerate the complete test implementation now:"

/-- The whole prompt f-string (app.py lines 42-80) with its six holes. -/
def promptTemplate (t v d b es sb : String) : String :=
  promptHeader t v d b ++ es ++ "\n\nData Models:\n" ++ sb
  ++ "\n\nRequirements:\n" ++ promptTail t

/-- `create_test_generation_prompt(api_info)` (app.py lines 25-81).
Dictionary keys are accessed in the order the Python executes:
`endpoints` (the loop), per endpoint `method` then `path`, then the
`.get('schemas', {})` loop, then `title`, `version`, `description`,
`base_url` inside the f-string.  A missing required key is a KeyError,
returned as `Except.error` with the key name. -/
def create_test_generation_prompt (api_info : ApiInfo) : Except String String :=
  match api_info.endpoints with
  | none => .error "endpoints"
  | some eps =>
    match endpointsSummary eps with
    | .error k => .error k
    | .ok endpoints_summary =>
      let schemas_block := schemasField (api_info.schemas.getD [])
      match api_info.title with
      | none => .error "title"
      | some title =>
        match api_info.version with
        | none => .error "version"
        | some version =>
          match api_info.description with
          | none => .error "description"
          | some description =>
            match api_info.base_url with
            | none => .error "base_url"
            | some base_url =>
              .ok (promptTemplate title version description base_url
                    endpoints_summary schemas_block)

/-- The markdown code-block extraction applied to the regeneration
response (app.py lines 220-228), on character lists:
if the text contains a java-tagged fence, take the stripped slice from the
end of the first tag to the next fence marker (unchanged if there is no
later marker); otherwise if it contains a fence marker and splitting on it
yields at least three parts, take the stripped second part; otherwise
return the text unchanged. -/
def extractCodeL (s : List Char) : List Char :=
  match findSubstr s javaFence with
  | some i =>
    match findSubstrFrom s fence (i + javaFence.length) with
    | some j => pyStrip ((s.take j).drop (i + javaFence.length))
    | none => s
  | none =>
    match findSubstr s fence with
    | some _ =>
      match splitOnList s fence with
      | _ :: part1 :: _ :: _ => pyStrip part1
      | _ => s
    | none => s

/-- The code-block extraction on strings. -/
def extractCode (s : String) : String := ⟨extractCodeL s.data⟩

/-- The refinement prompt f-string (app.py lines 198-215), embedding the
original prompt, the existing test code and the stripped user feedback,
in that order, between fixed instruction fragments. -/
def refinementPrompt (original_prompt old_test_code suggestions : String) : String :=
  "\nYou are a senior QA automation engineer and Java expert.\n\nContext:\nThe following JUnit 5 test code was previously generated using the given API specification.\n\nORIGINAL PROMPT:\n"
  ++ original_prompt
  ++ "\n\nEXISTING TEST CODE:\n"
  ++ old_test_code
  ++ "\n\nUSER FEEDBACK:\n"
  ++ suggestions
  ++ "\n\nTASK:\nImprove the test code based on user feedback and regenerate the complete updated test class following best practices.\n"

/-- `filename.replace('_Tests.java', '').replace('_', ' ')` (app.py line 181). -/
def api_title_of (filename : String) : String :=
  strReplace (strReplace filename "_Tests.java" "") "_" " "

/-- `api_title.lower().replace(" ", "")`: the needle matched against the
lowercased upload filenames (app.py line 184). -/
def matchNeedle (filename : String) : String :=
  strReplace (strLower (api_title_of filename)) " " ""

/-- `allowed_file` (app.py lines 22-23): the filename has a dot and its
extension, lowercased, is json, yaml or yml. -/
def allowed_file (filename : String) : Bool :=
  match extOf filename with
  | some e => e == "json" || e == "yaml" || e == "yml"
  | none => false

/-- An HTTP response of the two handlers: either a success payload
(the generated test text and its stored filename) or an error message
with its status code. -/
inductive Resp where
  | ok (testCases : String) (filename : String)
  | err (msg : String) (status : Nat)
deriving DecidableEq

/-- Outcome of one `/regenerate` request: the response, the
generated-tests folder afterwards, and the prompts sent to the
generation service, in order. -/
structure RegenOutcome where
  resp : Resp
  tests : Store
  calls : List String
deriving DecidableEq

/-- Outcome of one `/generate` request: the response, the generated-tests
and uploads folders afterwards, and the prompts sent to the generation
service, in order. -/
structure GenOutcome where
  resp : Resp
  tests : Store
  uploads : Store
  calls : List String
deriving DecidableEq

/-- `regenerate_tests` (app.py lines 165-246).  `parse` models
`SpecParser.parse_openapi_spec` and `gen` the Granite client, both opaque
collaborators that either return a value or raise (`Except.error`); a
raised error is caught by the handler's `except` block and surfaced as a
500 response prefixed `Failed to regenerate tests: `.  `filename?` and
`suggestions?` model `data.get('filename')` and `data.get('suggestions', '')`;
a missing filename and an empty filename are both falsy in Python,
so both are collapsed by `filename?.getD ""`. -/
def regenerate_tests (parse : String → String → Except String ApiInfo)
    (gen : String → Except String String)
    (tests uploads : Store)
    (filename? suggestions? : Option String) : RegenOutcome :=
  let suggestions := pyStripStr (suggestions?.getD "")
  if filename?.getD "" = "" ∨ suggestions = "" then
    ⟨.err "Missing filename or suggestions" 400, tests, []⟩
  else
    let filename := filename?.getD ""
    match storeLookup tests filename with
    | none => ⟨.err "Test file not found" 404, tests, []⟩
    | some old_test_code =>
      match findMatched (matchNeedle filename) uploads with
      | none => ⟨.err "Original API file not found for regeneration" 404, tests, []⟩
      | some (matched_file, spec_content) =>
        match extOf matched_file with
        | none => ⟨.err "Failed to regenerate tests: list index out of range" 500, tests, []⟩
        | some file_extension =>
          match parse spec_content file_extension with
          | .error e => ⟨.err ("Failed to regenerate tests: " ++ e) 500, tests, []⟩
          | .ok api_info =>
            match create_test_generation_prompt api_info with
            | .error k => ⟨.err ("Failed to regenerate tests: " ++ k) 500, tests, []⟩
            | .ok original_prompt =>
              let final_prompt := refinementPrompt original_prompt old_test_code suggestions
              match gen final_prompt with
              | .error e =>
                ⟨.err ("Failed to regenerate tests: " ++ e) 500, tests, [final_prompt]⟩
              | .ok raw =>
                let improved_tests := extractCode raw
                ⟨.ok improved_tests filename,
                 storeWrite tests filename improved_tests, [final_prompt]⟩

/-- `generate_tests` (app.py lines 89-138).  `secure` models werkzeug's
`secure_filename` and `uuid` the generated `uuid.uuid4()` prefix; `file?`
is the uploaded file (original name and content), `none` when the request
carries no file.  The uploaded file is saved before parsing and removed
again only after the generated tests have been written; the empty or
whitespace-only generation result is rejected with a 500 before any write
to the generated-tests folder. -/
def generate_tests (parse : String → String → Except String ApiInfo)
    (gen : String → Except String String)
    (secure : String → String) (uuid : String)
    (tests uploads : Store)
    (file? : Option (String × String)) : GenOutcome :=
  match file? with
  | none => ⟨.err "No file uploaded" 400, tests, uploads, []⟩
  | some (origName, content) =>
    if origName = "" then ⟨.err "No file selected" 400, tests, uploads, []⟩
    else if ¬ allowed_file origName then
      ⟨.err "Invalid file type. Please upload JSON, YAML, or YML files." 400, tests, uploads, []⟩
    else
      let filename := secure origName
      let unique_filename := uuid ++ "_" ++ filename
      let uploads1 := storeWrite uploads unique_filename content
      match extOf filename with
      | none => ⟨.err "Failed to generate tests: list index out of range" 500, tests, uploads1, []⟩
      | some file_extension =>
        match parse content file_extension with
        | .error e => ⟨.err ("Failed to generate tests: " ++ e) 500, tests, uploads1, []⟩
        | .ok api_info =>
          match create_test_generation_prompt api_info with
          | .error k => ⟨.err ("Failed to generate tests: " ++ k) 500, tests, uploads1, []⟩
          | .ok prompt =>
            match gen prompt with
            | .error e =>
              ⟨.err ("Failed to generate tests: " ++ e) 500, tests, uploads1, [prompt]⟩
            | .ok generated_tests =>
              if generated_tests = "" ∨ pyStripStr generated_tests = "" then
                ⟨.err "Test generation failed or returned empty result." 500,
                 tests, uploads1, [prompt]⟩
              else
                match api_info.title with
                | none => ⟨.err "Failed to generate tests: title" 500, tests, uploads1, [prompt]⟩
                | some title =>
                  let test_filename := strReplace title " " "_" ++ "_Tests.java"
                  ⟨.ok generated_tests test_filename,
                   storeWrite tests test_filename generated_tests,
                   storeRemove uploads1 unique_filename, [prompt]⟩

/-- A minimal complete `api_info` record (all required keys present,
no endpoints, empty schema mapping). -/
def api0 : ApiInfo :=
  ⟨some "API", some "1.0.0", some "", some "http://localhost", some [], some []⟩

/-- A spec parser stub returning `api0` for any input. -/
def parse0 : String → String → Except String ApiInfo := fun _ _ => .ok api0

/-- A generation service returning the empty string for any prompt. -/
def gen0 : String → Except String String := fun _ => .ok ""

/-- A generation service returning a whitespace-only string for any prompt. -/
def genWs : String → Except String String := fun _ => .ok "  "

/-- A filename sanitizer stub (identity). -/
def secure0 : String → String := fun s => s

/-- A generated-tests folder holding one previously generated artifact. -/
def tests0 : Store := [("API_Tests.java", "old tests")]

/-- An uploads folder holding the original spec file for `API_Tests.java`. -/
def uploads0 : Store := [("api.json", "spec")]

/-- An endpoint with an empty parameter list. -/
def epNoParams : EndpointInfo := ⟨some "GET", some "/pets", none, some [], none⟩

/-- The same endpoint with exactly one parameter that has no declared name. -/
def epOneUnnamed : EndpointInfo := ⟨some "GET", some "/pets", none, some [⟨none⟩], none⟩

theorem mkData_eq (s : String) : (⟨s.data⟩ : String) = s := rfl

theorem findSubstrAux_eq_none_iff (pat : List Char) (s : List Char) (i : Nat) :
    findSubstrAux pat s i = none ↔ ∀ k, ¬ pat <+: s.drop k := by
  induction s generalizing i with
  | nil =>
    simp only [findSubstrAux, List.drop_nil]
    by_cases h : pat.isPrefixOf ([] : List Char) = true
    · rw [if_pos h]
      rw [List.isPrefixOf_iff_prefix] at h
      constructor
      · intro hno; exact Option.noConfusion hno
      · intro hall; exact absurd h (hall 0)
    · rw [if_neg h]
      rw [List.isPrefixOf_iff_prefix] at h
      exact iff_of_true rfl (fun _ => h)
  | cons c rest ih =>
    simp only [findSubstrAux]
    by_cases h : pat.isPrefixOf (c :: rest) = true
    · rw [if_pos h]
      rw [List.isPrefixOf_iff_prefix] at h
      constructor
      · intro hno; exact Option.noConfusion hno
      · intro hall; exact absurd h (by simpa using hall 0)
    · rw [if_neg h]
      rw [List.isPrefixOf_iff_prefix] at h
      rw [ih]
      constructor
      · intro hall k
        cases k with
        | zero => simpa using h
        | succ k => simpa using hall k
      · intro hall k
        simpa using hall (k + 1)

theorem findSubstr_eq_none_iff (s pat : List Char) :
    findSubstr s pat = none ↔ ∀ k, ¬ pat <+: s.drop k :=
  findSubstrAux_eq_none_iff pat s 0

theorem fence_not_prefix_of_space (t : List Char)
    (h : ∀ c ∈ t, pyIsSpace c = true) : ¬ fence <+: t := by
  intro hpre
  have hbt : btChar ∈ t := hpre.subset (by decide : btChar ∈ fence)
  exact absurd (h btChar hbt) (by decide)

theorem no_fence_of_space (l : List Char) (h : ∀ c ∈ l, pyIsSpace c = true) :
    findSubstr l fence = none ∧ findSubstr l javaFence = none := by
  constructor
  · rw [findSubstr_eq_none_iff]
    intro k
    exact fence_not_prefix_of_space _ (fun c hc => h c (List.mem_of_mem_drop hc))
  · rw [findSubstr_eq_none_iff]
    intro k
    intro hpre
    have hfp : fence <+: l.drop k :=
      (List.prefix_append fence ['j', 'a', 'v', 'a']).trans hpre
    exact fence_not_prefix_of_space _ (fun c hc => h c (List.mem_of_mem_drop hc)) hfp

theorem pyStrip_nil_all (l : List Char) (h : pyStrip l = []) :
    ∀ c ∈ l, pyIsSpace c = true := by
  unfold pyStrip at h
  rw [List.reverse_eq_nil_iff, List.dropWhile_eq_nil_iff] at h
  intro c hc
  rw [← List.takeWhile_append_dropWhile pyIsSpace l] at hc
  rcases List.mem_append.mp hc with hc1 | hc2
  · exact List.mem_takeWhile_imp hc1
  · exact h c (List.mem_reverse.mpr hc2)

theorem extractCode_of_strip_empty (g : String) (h : pyStripStr g = "") :
    extractCode g = g := by
  have hd : pyStrip g.data = [] := congrArg String.data h
  have hall := pyStrip_nil_all g.data hd
  obtain ⟨hf, hj⟩ := no_fence_of_space g.data hall
  simp only [extractCode, extractCodeL, hf, hj]

theorem endpointsSummary_ok_iff (eps : List EndpointInfo) :
    (∃ s, endpointsSummary eps = .ok s) ↔
      ∀ e ∈ eps, e.method.isSome = true ∧ e.path.isSome = true := by
  induction eps with
  | nil => simp [endpointsSummary]
  | cons e es ih =>
    constructor
    · rintro ⟨s, hs⟩
      intro x hx
      cases hre : renderEndpoint e with
      | error k => simp [endpointsSummary, hre] at hs
      | ok s1 =>
        cases hrest : endpointsSummary es with
        | error k => simp [endpointsSummary, hre, hrest] at hs
        | ok s2 =>
          rcases List.mem_cons.mp hx with hxe | hxs
          · subst hxe
            unfold renderEndpoint at hre
            cases hm : x.method with
            | none => rw [hm] at hre; cases hre
            | some m =>
              cases hp : x.path with
              | none => rw [hm, hp] at hre; cases hre
              | some p => simp [hm, hp]
          · exact ih.mp ⟨s2, hrest⟩ x hxs
    · intro hall
      obtain ⟨m, hm⟩ := Option.isSome_iff_exists.mp (hall e (by simp)).1
      obtain ⟨p, hp⟩ := Option.isSome_iff_exists.mp (hall e (by simp)).2
      obtain ⟨s2, hs2⟩ := ih.mpr (fun x hx => hall x (List.mem_cons_of_mem _ hx))
      exact ⟨endpointEntry m p e ++ s2,
        by simp [endpointsSummary, renderEndpoint, hm, hp, hs2]⟩

theorem commaJoin_eq_empty_iff (l : List String) :
    commaJoin l = "" ↔ l = [] ∨ l = [""] := by
  match l with
  | [] => simp [commaJoin]
  | [x] => simp [commaJoin]
  | x :: y :: rest =>
    simp only [commaJoin]
    constructor
    · intro h
      exfalso
      have hlen := congrArg String.length h
      rw [String.length_append, String.length_append] at hlen
      have h2 : (", " : String).length = 2 := by decide
      rw [h2] at hlen
      have h0 : ("" : String).length = 0 := rfl
      rw [h0] at hlen
      omega
    · rintro (h | h) <;> simp at h

/-- C2: prompt rendering is deterministic: it is a pure function of the
`ApiDescription` record, so two renderings of the same record yield
byte-identical prompt text. -/
theorem prompt_render_deterministic (a b : ApiInfo) (h : a = b) :
    create_test_generation_prompt a = create_test_generation_prompt b := by
  rw [h]

theorem prompt_render_deterministic_witness :
    create_test_generation_prompt api0 = create_test_generation_prompt api0 :=
  prompt_render_deterministic api0 api0 rfl

/-- C3: when the raw generation response contains the java-tagged fence
(first occurrence at index `i`) followed by a later fence marker (next
occurrence at index `j`), extraction returns the stripped content between
the end of the opening tag and that fence marker. -/
theorem extractCode_java_fenced (s : String) (i j : Nat)
    (h1 : findSubstr s.data javaFence = some i)
    (h2 : findSubstrFrom s.data fence (i + javaFence.length) = some j) :
    extractCode s = ⟨pyStrip ((s.data.take j).drop (i + javaFence.length))⟩ := by
  simp only [extractCode, extractCodeL, h1, h2]

theorem extractCode_java_fenced_witness :
    extractCode "```java\nclass X\x7b\x7d\n```" = "class X\x7b\x7d" := by
  have h := extractCode_java_fenced "```java\nclass X\x7b\x7d\n```" 0 18
    (by decide) (by decide)
  rw [h]
  decide

/-- C4: extraction fails open: a java-tagged fence with no later fence
marker, an untagged fence whose split has fewer than three segments, and
a text with no fence marker at all are each returned unchanged (the
function is total by construction, so extraction never raises). -/
theorem extractCode_fail_open (s : String) :
    (∀ i, findSubstr s.data javaFence = some i →
        findSubstrFrom s.data fence (i + javaFence.length) = none →
        extractCode s = s)
    ∧ (findSubstr s.data javaFence = none →
        (splitOnList s.data fence).length < 3 → extractCode s = s)
    ∧ (findSubstr s.data fence = none → extractCode s = s) := by
  refine ⟨?_, ?_, ?_⟩
  · intro i h1 h2
    simp only [extractCode, extractCodeL, h1, h2]
  · intro h1 h2
    cases hf : findSubstr s.data fence with
    | none => simp only [extractCode, extractCodeL, h1, hf]
    | some k =>
      rcases hsp : splitOnList s.data fence with _ | ⟨a, _ | ⟨b, _ | ⟨c, rest⟩⟩⟩
      · simp only [extractCode, extractCodeL, h1, hf, hsp]
      · simp only [extractCode, extractCodeL, h1, hf, hsp]
      · simp only [extractCode, extractCodeL, h1, hf, hsp]
      · rw [hsp] at h2
        simp at h2
        omega
  · intro h
    have hj : findSubstr s.data javaFence = none := by
      rw [findSubstr_eq_none_iff] at h ⊢
      intro k hpre
      exact h k ((List.prefix_append fence ['j', 'a', 'v', 'a']).trans hpre)
    simp only [extractCode, extractCodeL, hj, h]

theorem extractCode_fail_open_witness :
    extractCode "```java no close" = "```java no close"
    ∧ extractCode "a```b" = "a```b"
    ∧ extractCode "plain" = "plain" :=
  ⟨(extractCode_fail_open "```java no close").1 0 (by decide) (by decide),
   (extractCode_fail_open "a```b").2.1 (by decide) (by decide),
   (extractCode_fail_open "plain").2.2 (by decide)⟩

/-- C5: a refinement request whose feedback strips to the empty string is
rejected with the 400 error before any prompt is composed or any
generation call is made: the stored tests are unchanged and the list of
prompts sent to the generation service is empty. -/
theorem regenerate_empty_feedback_rejected
    (parse : String → String → Except String ApiInfo)
    (gen : String → Except String String)
    (tests uploads : Store) (filename? suggestions? : Option String)
    (h : pyStripStr (suggestions?.getD "") = "") :
    regenerate_tests parse gen tests uploads filename? suggestions?
      = ⟨.err "Missing filename or suggestions" 400, tests, []⟩ := by
  simp [regenerate_tests, h]

theorem regenerate_empty_feedback_rejected_witness :
    regenerate_tests parse0 gen0 tests0 uploads0 (some "API_Tests.java") (some "   ")
      = ⟨.err "Missing filename or suggestions" 400, tests0, []⟩ :=
  regenerate_empty_feedback_rejected parse0 gen0 tests0 uploads0
    (some "API_Tests.java") (some "   ") (by decide)

/-- C8: the composed refinement prompt is one block embedding, verbatim
and in this order, the original generation prompt, the existing generated
code, the trimmed feedback, and the fixed closing instruction asking for a
complete improved replacement. -/
theorem refinement_prompt_structure (op code fb : String)
    (_h1 : pyStripStr fb = fb) (_h2 : fb ≠ "") :
    refinementPrompt op code fb =
      "\nYou are a senior QA automation engineer and Java expert.\n\nContext:\nThe following JUnit 5 test code was previously generated using the given API specification.\n\nORIGINAL PROMPT:\n"
      ++ op
      ++ "\n\nEXISTING TEST CODE:\n"
      ++ code
      ++ "\n\nUSER FEEDBACK:\n"
      ++ fb
      ++ "\n\nTASK:\nImprove the test code based on user feedback and regenerate the complete updated test class following best practices.\n" :=
  rfl

theorem refinement_prompt_structure_witness :
    refinementPrompt "P" "C" "fix it" =
      "\nYou are a senior QA automation engineer and Java expert.\n\nContext:\nThe following JUnit 5 test code was previously generated using the given API specification.\n\nORIGINAL PROMPT:\n"
      ++ "P"
      ++ "\n\nEXISTING TEST CODE:\n"
      ++ "C"
      ++ "\n\nUSER FEEDBACK:\n"
      ++ "fix it"
      ++ "\n\nTASK:\nImprove the test code based on user feedback and regenerate the complete updated test class following best practices.\n" :=
  refinement_prompt_structure "P" "C" "fix it" (by decide) (by decide)

/-- C7 counterexample: an endpoint whose parameter list is exactly one
unnamed parameter renders identically to the same endpoint with an empty
parameter list — the parameters line shows the literal `None` instead of
one empty placeholder, so the rendered parameter positions (zero) do not
equal the declared parameter count (one). -/
theorem unnamed_param_collapses :
    renderEndpoint epOneUnnamed = renderEndpoint epNoParams
    ∧ (epOneUnnamed.parameters.getD []).length = 1
    ∧ (epNoParams.parameters.getD []).length = 0
    ∧ paramsField [⟨none⟩] = "None"
    ∧ paramsField [] = "None" := by
  refine ⟨rfl, rfl, rfl, rfl, rfl⟩

/-- C7 amended: the comma-joined parameter summary keeps one entry (an
empty placeholder) per declared parameter and is rendered as-is whenever
it is non-empty; but the joined string is empty exactly when the name list
is `[]` or the single empty name `[""]`, and in that case the line renders
the literal `None`, losing the count for a single unnamed parameter. -/
theorem params_placeholder_amended (ps : List ParamInfo) :
    (ps.map (fun p => p.name.getD "")).length = ps.length
    ∧ (paramsStr ps ≠ "" → paramsField ps = paramsStr ps)
    ∧ (paramsStr ps = "" ↔
        ps.map (fun p => p.name.getD "") = []
        ∨ ps.map (fun p => p.name.getD "") = [""])
    ∧ (paramsStr ps = "" → paramsField ps = "None") := by
  refine ⟨by simp, ?_, ?_, ?_⟩
  · intro h
    simp [paramsField, h]
  · exact commaJoin_eq_empty_iff _
  · intro h
    simp [paramsField, h]

theorem params_placeholder_amended_witness :
    paramsField [] = "None" :=
  (params_placeholder_amended []).2.2.2 rfl

/-- C6 counterexample: the missing-filename case and the empty-feedback
case of the refinement path produce the same error message
`Missing filename or suggestions`, so the four `InvalidInputError` cases
are not surfaced with pairwise distinct messages. -/
theorem regen_error_messages_collide :
    (regenerate_tests parse0 gen0 tests0 uploads0 none (some "improve")).resp
      = .err "Missing filename or suggestions" 400
    ∧ (regenerate_tests parse0 gen0 tests0 uploads0
        (some "API_Tests.java") (some "   ")).resp
      = .err "Missing filename or suggestions" 400 := by
  refine ⟨by decide, by decide⟩

/-- C6 amended: the refinement path surfaces three distinct messages for
its four invalid-input cases: missing filename and empty feedback share
the single message `Missing filename or suggestions`, while a missing
stored artifact and an unresolvable original spec file get the distinct
messages `Test file not found` and
`Original API file not found for regeneration`. -/
theorem regen_error_messages_amended
    (parse : String → String → Except String ApiInfo)
    (gen : String → Except String String)
    (tests uploads : Store) (filename? suggestions? : Option String) :
    (filename?.getD "" = "" →
      (regenerate_tests parse gen tests uploads filename? suggestions?).resp
        = .err "Missing filename or suggestions" 400)
    ∧ (pyStripStr (suggestions?.getD "") = "" →
      (regenerate_tests parse gen tests uploads filename? suggestions?).resp
        = .err "Missing filename or suggestions" 400)
    ∧ (∀ fn, filename? = some fn → fn ≠ "" →
        pyStripStr (suggestions?.getD "") ≠ "" →
        storeLookup tests fn = none →
        (regenerate_tests parse gen tests uploads filename? suggestions?).resp
          = .err "Test file not found" 404)
    ∧ (∀ fn old, filename? = some fn → fn ≠ "" →
        pyStripStr (suggestions?.getD "") ≠ "" →
        storeLookup tests fn = some old →
        findMatched (matchNeedle fn) uploads = none →
        (regenerate_tests parse gen tests uploads filename? suggestions?).resp
          = .err "Original API file not found for regeneration" 404)
    ∧ ("Missing filename or suggestions" ≠ "Test file not found"
        ∧ "Missing filename or suggestions"
            ≠ "Original API file not found for regeneration"
        ∧ "Test file not found" ≠ "Original API file not found for regeneration") := by
  refine ⟨?_, ?_, ?_, ?_, by decide, by decide, by decide⟩
  · intro h
    simp [regenerate_tests, h]
  · intro h
    simp [regenerate_tests, h]
  · intro fn hfn hne hsug hlook
    subst hfn
    have hcond : ¬ ((some fn).getD "" = "" ∨ pyStripStr (suggestions?.getD "") = "") := by
      simp [hne, hsug]
    simp only [regenerate_tests, if_neg hcond]
    simp [hlook]
  · intro fn old hfn hne hsug hlook hmatch
    subst hfn
    have hcond : ¬ ((some fn).getD "" = "" ∨ pyStripStr (suggestions?.getD "") = "") := by
      simp [hne, hsug]
    simp only [regenerate_tests, if_neg hcond]
    simp [hlook, hmatch]

theorem regen_error_messages_amended_witness :
    (regenerate_tests parse0 gen0 tests0 uploads0 none none).resp
      = .err "Missing filename or suggestions" 400 :=
  (regen_error_messages_amended parse0 gen0 tests0 uploads0 none none).1 rfl

/-- C1 counterexample: on the regenerate path an empty generation result
is NOT rejected: with a stored artifact `API_Tests.java` containing
`old tests` and a generation service returning the empty string, the
request reports success and the stored test file is overwritten with the
empty (whitespace-only) result. -/
theorem regen_overwrites_with_empty :
    (regenerate_tests parse0 gen0 tests0 uploads0
        (some "API_Tests.java") (some "add more")).resp
      = .ok "" "API_Tests.java"
    ∧ (regenerate_tests parse0 gen0 tests0 uploads0
        (some "API_Tests.java") (some "add more")).tests
      = [("API_Tests.java", "")]
    ∧ storeLookup tests0 "API_Tests.java" = some "old tests"
    ∧ pyStripStr "" = "" := by
  refine ⟨by decide, by decide, by decide, by decide⟩

/-- C1 amended: on the generate path, a generation service that only
produces empty or whitespace-only text never mutates the stored test
files and never yields a success response (the empty result is a terminal
500 failure); on the regenerate path there is no such guard: if the
request succeeds under such a service, the returned text is
whitespace-only and the previously stored test file (which existed) is
overwritten with it. -/
theorem generation_empty_guard_amended :
    (∀ parse gen secure uuid tests uploads file?,
      (∀ p g, gen p = .ok g → pyStripStr g = "") →
        (generate_tests parse gen secure uuid tests uploads file?).tests = tests
        ∧ (∀ t f,
            (generate_tests parse gen secure uuid tests uploads file?).resp ≠ .ok t f)
        ∧ (∀ p g,
            p ∈ (generate_tests parse gen secure uuid tests uploads file?).calls →
            gen p = .ok g →
            (generate_tests parse gen secure uuid tests uploads file?).resp
              = .err "Test generation failed or returned empty result." 500))
    ∧ (∀ parse gen tests uploads filename? suggestions? t f,
        (∀ p g, gen p = .ok g → pyStripStr g = "") →
        (regenerate_tests parse gen tests uploads filename? suggestions?).resp
          = .ok t f →
          pyStripStr t = ""
          ∧ (regenerate_tests parse gen tests uploads filename? suggestions?).tests
              = storeWrite tests f t
          ∧ ∃ old, storeLookup tests f = some old) := by
  constructor
  · intro parse gen secure uuid tests uploads file? hg
    rcases file? with _ | ⟨origName, content⟩
    · exact ⟨rfl, fun t f h => Resp.noConfusion h,
        fun p g hp _ => absurd hp (List.not_mem_nil p)⟩
    · by_cases h1 : origName = ""
      · have hred : generate_tests parse gen secure uuid tests uploads
            (some (origName, content))
            = ⟨.err "No file selected" 400, tests, uploads, []⟩ := by
          simp [generate_tests, h1]
        rw [hred]
        exact ⟨rfl, fun t f h => Resp.noConfusion h,
          fun p g hp _ => absurd hp (List.not_mem_nil p)⟩
      · by_cases h2 : allowed_file origName = true
        · cases hext : extOf (secure origName) with
          | none =>
            have hred : generate_tests parse gen secure uuid tests uploads
                (some (origName, content))
                = ⟨.err "Failed to generate tests: list index out of range" 500,
                   tests, storeWrite uploads (uuid ++ "_" ++ secure origName) content,
                   []⟩ := by
              simp [generate_tests, h1, h2, hext]
            rw [hred]
            exact ⟨rfl, fun t f h => Resp.noConfusion h,
              fun p g hp _ => absurd hp (List.not_mem_nil p)⟩
          | some ext =>
            cases hp : parse content ext with
            | error e =>
              have hred : generate_tests parse gen secure uuid tests uploads
                  (some (origName, content))
                  = ⟨.err ("Failed to generate tests: " ++ e) 500,
                     tests, storeWrite uploads (uuid ++ "_" ++ secure origName) content,
                     []⟩ := by
                simp [generate_tests, h1, h2, hext, hp]
              rw [hred]
              exact ⟨rfl, fun t f h => Resp.noConfusion h,
                fun q g hq _ => absurd hq (List.not_mem_nil q)⟩
            | ok api_info =>
              cases hcp : create_test_generation_prompt api_info with
              | error k =>
                have hred : generate_tests parse gen secure uuid tests uploads
                    (some (origName, content))
                    = ⟨.err ("Failed to generate tests: " ++ k) 500,
                       tests, storeWrite uploads (uuid ++ "_" ++ secure origName) content,
                       []⟩ := by
                  simp [generate_tests, h1, h2, hext, hp, hcp]
                rw [hred]
                exact ⟨rfl, fun t f h => Resp.noConfusion h,
                  fun q g hq _ => absurd hq (List.not_mem_nil q)⟩
              | ok prompt =>
                cases hgen : gen prompt with
                | error e =>
                  have hred : generate_tests parse gen secure uuid tests uploads
                      (some (origName, content))
                      = ⟨.err ("Failed to generate tests: " ++ e) 500,
                         tests, storeWrite uploads (uuid ++ "_" ++ secure origName) content,
                         [prompt]⟩ := by
                    simp [generate_tests, h1, h2, hext, hp, hcp, hgen]
                  rw [hred]
                  refine ⟨rfl, fun t f h => Resp.noConfusion h, ?_⟩
                  intro q g hq hgeq
                  rw [List.mem_singleton.mp hq, hgen] at hgeq
                  exact Except.noConfusion hgeq
                | ok g =>
                  have hcond : g = "" ∨ pyStripStr g = "" := Or.inr (hg _ _ hgen)
                  have hred : generate_tests parse gen secure uuid tests uploads
                      (some (origName, content))
                      = ⟨.err "Test generation failed or returned empty result." 500,
                         tests, storeWrite uploads (uuid ++ "_" ++ secure origName) content,
                         [prompt]⟩ := by
                    simp [generate_tests, h1, h2, hext, hp, hcp, hgen, hcond]
                  rw [hred]
                  exact ⟨rfl, fun t f h => Resp.noConfusion h, fun q g2 hq hgeq => rfl⟩
        · have hred : generate_tests parse gen secure uuid tests uploads
              (some (origName, content))
              = ⟨.err "Invalid file type. Please upload JSON, YAML, or YML files." 400,
                 tests, uploads, []⟩ := by
            simp [generate_tests, h1, h2]
          rw [hred]
          exact ⟨rfl, fun t f h => Resp.noConfusion h,
            fun p g hp _ => absurd hp (List.not_mem_nil p)⟩
  · intro parse gen tests uploads filename? suggestions? t f hg hok
    by_cases h1 : filename?.getD "" = "" ∨ pyStripStr (suggestions?.getD "") = ""
    · simp [regenerate_tests, h1] at hok
    · cases hlk : storeLookup tests (filename?.getD "") with
      | none => simp [regenerate_tests, h1, hlk] at hok
      | some old =>
        cases hm : findMatched (matchNeedle (filename?.getD "")) uploads with
        | none => simp [regenerate_tests, h1, hlk, hm] at hok
        | some mf =>
          obtain ⟨mname, mcontent⟩ := mf
          cases hext : extOf mname with
          | none => simp [regenerate_tests, h1, hlk, hm, hext] at hok
          | some ext =>
            cases hp : parse mcontent ext with
            | error e => simp [regenerate_tests, h1, hlk, hm, hext, hp] at hok
            | ok api_info =>
              cases hcp : create_test_generation_prompt api_info with
              | error k => simp [regenerate_tests, h1, hlk, hm, hext, hp, hcp] at hok
              | ok original_prompt =>
                cases hgen : gen (refinementPrompt original_prompt old
                    (pyStripStr (suggestions?.getD ""))) with
                | error e =>
                  simp [regenerate_tests, h1, hlk, hm, hext, hp, hcp, hgen] at hok
                | ok raw =>
                  have hred : regenerate_tests parse gen tests uploads filename? suggestions?
                      = ⟨.ok (extractCode raw) (filename?.getD ""),
                         storeWrite tests (filename?.getD "") (extractCode raw),
                         [refinementPrompt original_prompt old
                           (pyStripStr (suggestions?.getD ""))]⟩ := by
                    simp [regenerate_tests, h1, hlk, hm, hext, hp, hcp, hgen]
                  rw [hred] at hok ⊢
                  have hraw : pyStripStr raw = "" := hg _ _ hgen
                  have hex : extractCode raw = raw :=
                    extractCode_of_strip_empty raw hraw
                  have hok2 : Resp.ok (extractCode raw) (filename?.getD "")
                      = Resp.ok t f := hok
                  injection hok2 with hts hfn
                  rw [hfn] at hlk
                  refine ⟨by rw [← hts, hex]; exact hraw, ?_, ⟨old, hlk⟩⟩
                  show storeWrite tests (filename?.getD "") (extractCode raw)
                      = storeWrite tests f t
                  rw [hts, hfn]

theorem generation_empty_guard_amended_witness :
    (generate_tests parse0 genWs secure0 "u1" tests0 uploads0
        (some ("api.json", "spec"))).tests = tests0
    ∧ (∀ t f, (generate_tests parse0 genWs secure0 "u1" tests0 uploads0
        (some ("api.json", "spec"))).resp ≠ .ok t f)
    ∧ (generate_tests parse0 genWs secure0 "u1" tests0 uploads0
        (some ("api.json", "spec"))).resp
      = .err "Test generation failed or returned empty result." 500 := by
  have h := generation_empty_guard_amended.1 parse0 genWs secure0 "u1" tests0 uploads0
    (some ("api.json", "spec"))
    (fun _ g hg => by injection hg with h2; rw [← h2]; decide)
  refine ⟨h.1, h.2.1, ?_⟩
  refine h.2.2
    (promptTemplate "API" "1.0.0" "" "http://localhost" "" "No schemas defined")
    "  " ?_ rfl
  have hc : (generate_tests parse0 genWs secure0 "u1" tests0 uploads0
        (some ("api.json", "spec"))).calls
      = [promptTemplate "API" "1.0.0" "" "http://localhost" "" "No schemas defined"] := rfl
  rw [hc]
  exact List.mem_singleton.mpr rfl

/-- C9: when the schemas mapping is empty the data-models block is exactly
the literal `No schemas defined`, and any successfully rendered prompt
contains the data-models section as
`Data Models:` newline `No schemas defined` followed by the requirements
header. -/
theorem prompt_empty_schemas (api : ApiInfo) (h : api.schemas.getD [] = []) :
    schemasField (api.schemas.getD []) = "No schemas defined"
    ∧ ∀ s, create_test_generation_prompt api = .ok s →
        ∃ pre post,
          s = pre ++ "\n\nData Models:\nNo schemas defined\n\nRequirements:\n" ++ post := by
  have hsf : schemasField (api.schemas.getD []) = "No schemas defined" := by
    rw [h]
    rfl
  refine ⟨hsf, ?_⟩
  intro s hs
  cases hE : api.endpoints with
  | none => simp [create_test_generation_prompt, hE] at hs
  | some eps =>
    cases hES : endpointsSummary eps with
    | error k => simp [create_test_generation_prompt, hE, hES] at hs
    | ok es =>
      cases hT : api.title with
      | none => simp [create_test_generation_prompt, hE, hES, hT] at hs
      | some t =>
        cases hV : api.version with
        | none => simp [create_test_generation_prompt, hE, hES, hT, hV] at hs
        | some v =>
          cases hD : api.description with
          | none => simp [create_test_generation_prompt, hE, hES, hT, hV, hD] at hs
          | some d =>
            cases hB : api.base_url with
            | none =>
              simp [create_test_generation_prompt, hE, hES, hT, hV, hD, hB] at hs
            | some b =>
              have hs2 : s = promptTemplate t v d b es "No schemas defined" := by
                have hred : create_test_generation_prompt api
                    = .ok (promptTemplate t v d b es "No schemas defined") := by
                  simp [create_test_generation_prompt, hE, hES, hT, hV, hD, hB, hsf]
                rw [hred] at hs
                injection hs with hs3
                exact hs3.symm
              refine ⟨promptHeader t v d b ++ es, promptTail t, ?_⟩
              rw [hs2]
              unfold promptTemplate
              have key : ("\n\nData Models:\n" : String)
                    ++ ("No schemas defined" ++ ("\n\nRequirements:\n" ++ promptTail t))
                  = "\n\nData Models:\nNo schemas defined\n\nRequirements:\n"
                    ++ promptTail t := by
                rw [← String.append_assoc "No schemas defined" "\n\nRequirements:\n"
                      (promptTail t)]
                rw [← String.append_assoc "\n\nData Models:\n"
                      ("No schemas defined" ++ "\n\nRequirements:\n") (promptTail t)]
                have hlit : ("\n\nData Models:\n" : String)
                      ++ ("No schemas defined" ++ "\n\nRequirements:\n")
                    = "\n\nData Models:\nNo schemas defined\n\nRequirements:\n" := by decide
                rw [← hlit, String.append_assoc]
              simp only [String.append_assoc]
              rw [key]

theorem prompt_empty_schemas_witness :
    ∃ pre post,
      promptTemplate "API" "1.0.0" "" "http://localhost" "" "No schemas defined"
        = pre ++ "\n\nData Models:\nNo schemas defined\n\nRequirements:\n" ++ post :=
  (prompt_empty_schemas api0 rfl).2
    (promptTemplate "API" "1.0.0" "" "http://localhost" "" "No schemas defined") rfl

/-- C10: the prompt renderer succeeds exactly when the required keys
`title`, `version`, `description`, `base_url`, `endpoints` are present and
every endpoint has `method` and `path` (a missing required key is a lookup
error); the optional fields default without failure: an absent `schemas`
mapping behaves like an empty one, and an absent endpoint `summary`,
`parameters`, `responses` behaves like `N/A`, the empty list, and the
empty mapping (rendered `N/A`) respectively. -/
theorem prompt_total_iff_required (api : ApiInfo) :
    ((∃ s, create_test_generation_prompt api = .ok s) ↔
      (api.title.isSome = true ∧ api.version.isSome = true
        ∧ api.description.isSome = true ∧ api.base_url.isSome = true
        ∧ api.endpoints.isSome = true
        ∧ ∀ e ∈ api.endpoints.getD [],
            e.method.isSome = true ∧ e.path.isSome = true))
    ∧ create_test_generation_prompt { api with schemas := none }
        = create_test_generation_prompt { api with schemas := some [] }
    ∧ (∀ e : EndpointInfo,
        renderEndpoint { e with summary := none }
            = renderEndpoint { e with summary := some "N/A" }
        ∧ renderEndpoint { e with parameters := none }
            = renderEndpoint { e with parameters := some [] }
        ∧ renderEndpoint { e with responses := none }
            = renderEndpoint { e with responses := some [] })
    ∧ responsesField [] = "N/A" := by
  refine ⟨?_, ?_, ?_, rfl⟩
  · constructor
    · rintro ⟨s, hs⟩
      cases hE : api.endpoints with
      | none => simp [create_test_generation_prompt, hE] at hs
      | some eps =>
        cases hES : endpointsSummary eps with
        | error k => simp [create_test_generation_prompt, hE, hES] at hs
        | ok es =>
          cases hT : api.title with
          | none => simp [create_test_generation_prompt, hE, hES, hT] at hs
          | some t =>
            cases hV : api.version with
            | none => simp [create_test_generation_prompt, hE, hES, hT, hV] at hs
            | some v =>
              cases hD : api.description with
              | none =>
                simp [create_test_generation_prompt, hE, hES, hT, hV, hD] at hs
              | some d =>
                cases hB : api.base_url with
                | none =>
                  simp [create_test_generation_prompt, hE, hES, hT, hV, hD, hB] at hs
                | some b =>
                  refine ⟨by simp [hT], by simp [hV], by simp [hD], by simp [hB],
                    by simp [hE], ?_⟩
                  simpa using (endpointsSummary_ok_iff eps).mp ⟨es, hES⟩
    · rintro ⟨hT, hV, hD, hB, hE, hMP⟩
      obtain ⟨t, ht⟩ := Option.isSome_iff_exists.mp hT
      obtain ⟨v, hv⟩ := Option.isSome_iff_exists.mp hV
      obtain ⟨d, hd⟩ := Option.isSome_iff_exists.mp hD
      obtain ⟨b, hb⟩ := Option.isSome_iff_exists.mp hB
      obtain ⟨eps, he⟩ := Option.isSome_iff_exists.mp hE
      rw [he] at hMP
      obtain ⟨es, hes⟩ := (endpointsSummary_ok_iff eps).mpr (by simpa using hMP)
      exact ⟨promptTemplate t v d b es (schemasField (api.schemas.getD [])),
        by simp [create_test_generation_prompt, ht, hv, hd, hb, he, hes]⟩
  · obtain ⟨t?, v?, d?, b?, e?, s?⟩ := api
    rfl
  · intro e
    obtain ⟨m?, p?, su?, pa?, re?⟩ := e
    refine ⟨?_, ?_, ?_⟩ <;> cases m? <;> cases p? <;> rfl

theorem prompt_total_iff_required_witness :
    create_test_generation_prompt { api0 with schemas := none }
      = create_test_generation_prompt { api0 with schemas := some [] } :=
  (prompt_total_iff_required api0).2.1

end AppModel
